import Mathlib

/-!
Shallow embedding of the dns-pajatso DNS server core (store.go with expiry,
server.go) and proofs about its query responder, update processor and record
store. Machine time is modelled as an integer nanosecond timestamp passed
explicitly to the operations that read the clock; the external DNS codec and
TSIG primitive are abstracted: MAC verification is a boolean oracle parameter,
and a message is a structure of already-decoded sections.
-/

namespace DnsPajatso

/-! ## DNS constants (from the dns library's numeric assignments) -/

def TypeA : Nat := 1
def TypeNS : Nat := 2
def TypeSOA : Nat := 6
def TypeTXT : Nat := 16
def TypeTSIG : Nat := 250
def TypeANY : Nat := 255

def ClassINET : Nat := 1
def ClassNONE : Nat := 254
def ClassANY : Nat := 255

def RcodeSuccess : Nat := 0
def RcodeFormatError : Nat := 1
def RcodeNameError : Nat := 3
def RcodeRefused : Nat := 5
def RcodeNotAuth : Nat := 9

def OpcodeUpdate : Nat := 5

/-! ## Resource records and messages -/

/-- dns.Header: shared header of a resource record. -/
structure Header where
  Name : String
  Class : Nat
  TTL : Nat
deriving Repr, DecidableEq

/-- A resource record, tagged by its concrete Go type so that the server's
type switches and type assertions (for example `rr.(*dns.TXT)`) can be
mirrored. `other` stands for any further record type (such as A records),
carrying its numeric type. -/
inductive RR where
  | txt (hdr : Header) (Txt : List String)
  | soa (hdr : Header) (Ns Mbox : String) (Serial Refresh Retry Expire Minttl : Nat)
  | ns (hdr : Header) (Ns : String)
  | any (hdr : Header)
  | tsig (hdr : Header)
  | other (hdr : Header) (rrtype : Nat)
deriving Repr, DecidableEq

/-- rr.Header(): the header of a record. -/
def RR.header : RR → Header
  | .txt h _ => h
  | .soa h _ _ _ _ _ _ _ => h
  | .ns h _ => h
  | .any h => h
  | .tsig h => h
  | .other h _ => h

/-- dns.RRToType: numeric record type of a record. -/
def RRToType : RR → Nat
  | .txt _ _ => TypeTXT
  | .soa _ _ _ _ _ _ _ _ => TypeSOA
  | .ns _ _ => TypeNS
  | .any _ => TypeANY
  | .tsig _ => TypeTSIG
  | .other _ t => t

/-- strings.ToLower (ASCII suffices for domain names), written over the
character list of the string so that it evaluates structurally. -/
def toLowerName (s : String) : String :=
  ⟨s.data.map Char.toLower⟩

/-- dns.EqualName: case-insensitive equality of domain names. -/
def EqualName (a b : String) : Bool :=
  toLowerName a == toLowerName b

/-- dnsutil.IsBelow parent child: child is equal to parent or a subdomain of
it (both names fully qualified with a trailing dot), compared
case-insensitively. -/
def IsBelow (parent child : String) : Bool :=
  toLowerName child == toLowerName parent ||
    ('.' :: (toLowerName parent).data).isSuffixOf (toLowerName child).data

/-- A decoded inbound dns.Msg: opcode, question/zone section, update section
(`Ns`), pseudo section (which may hold the TSIG record), and whether the full
`Unpack()` of the remaining sections succeeds. -/
structure Msg where
  Opcode : Nat
  Question : List RR
  Ns : List RR
  Pseudo : List RR
  unpackOk : Bool
deriving Repr, DecidableEq

/-- An outbound reply message as handed to writeMsg by handleQuery:
response code, answer section, authority section (`Ns`), authoritative bit. -/
structure ReplyMsg where
  Rcode : Nat
  Answer : List RR
  Ns : List RR
  Authoritative : Bool
deriving Repr, DecidableEq

/-! ## Record store (store.go, the version with expiry) -/

/-- recordTTL = 10 * time.Minute, in nanoseconds. -/
def recordTTL : Int := 10 * 60 * 1000000000

/-- Store: holds at most one TXT record value with an expiry timestamp. -/
structure Store where
  value : String
  expiry : Int
  set : Bool
deriving Repr, DecidableEq

/-- Store.Get: returns the current TXT value if one is set and has not
expired. `now` is the value of time.Now(); `time.Now().After(s.expiry)` is
the strict comparison `s.expiry < now`. -/
def Store.Get (s : Store) (now : Int) : String × Bool :=
  if ¬ s.set then ("", false)
  else if s.expiry < now then ("", false)
  else (s.value, true)

/-- Store.Set: stores a TXT value with a 10-minute expiry from `now`. -/
def Store.Set (_s : Store) (now : Int) (value : String) : Store :=
  { value := value, expiry := now + recordTTL, set := true }

/-- Store.Delete: removes the stored TXT value (expiry field is left as is,
exactly as in the Go code, which only clears `value` and `set`). -/
def Store.Delete (s : Store) : Store :=
  { s with value := "", set := false }

/-! ## Server (server.go) -/

/-- Server configuration: zone apex, NS hostname, TSIG key name. The TSIG
secret only feeds the external MAC primitive, which is abstracted as a
boolean verification oracle below. -/
structure Server where
  Zone : String
  NS : String
  TsigName : String
deriving Repr, DecidableEq

/-- challengeName: the FQDN for the _acme-challenge record. -/
def challengeName (s : Server) : String :=
  "_acme-challenge." ++ s.Zone

/-- soaRecord: synthesized SOA record for the zone apex. -/
def soaRecord (s : Server) : RR :=
  .soa ⟨s.Zone, ClassINET, 300⟩ s.NS ("hostmaster." ++ s.Zone) 1 3600 600 86400 300

/-- nsRecord: synthesized NS record for the zone apex. -/
def nsRecord (s : Server) : RR :=
  .ns ⟨s.Zone, ClassINET, 300⟩ s.NS

/-- handleQuery: authoritative responses for the zone. Returns the reply
message handed to writeMsg. `now` is the clock value observed by the single
Store.Get read. -/
def handleQuery (s : Server) (st : Store) (now : Int) (r : Msg) : ReplyMsg :=
  match r.Question with
  | [] => { Rcode := RcodeFormatError, Answer := [], Ns := [], Authoritative := true }
  | q :: _ =>
    let qname := toLowerName (RR.header q).Name
    let qtype := RRToType q
    if ¬ IsBelow s.Zone qname then
      { Rcode := RcodeRefused, Answer := [], Ns := [], Authoritative := true }
    else if EqualName qname s.Zone then
      if qtype = TypeSOA ∨ qtype = TypeANY then
        { Rcode := RcodeSuccess,
          Answer := soaRecord s :: (if qtype = TypeANY then [nsRecord s] else []),
          Ns := [], Authoritative := true }
      else if qtype = TypeNS then
        { Rcode := RcodeSuccess, Answer := [nsRecord s], Ns := [], Authoritative := true }
      else
        { Rcode := RcodeSuccess, Answer := [], Ns := [soaRecord s], Authoritative := true }
    else if EqualName qname (challengeName s) then
      let answer :=
        if qtype = TypeTXT ∨ qtype = TypeANY then
          match Store.Get st now with
          | (val, true) => [RR.txt ⟨challengeName s, ClassINET, 60⟩ [val]]
          | (_, false) => []
        else []
      if answer.isEmpty then
        { Rcode := RcodeSuccess, Answer := [], Ns := [soaRecord s], Authoritative := true }
      else
        { Rcode := RcodeSuccess, Answer := answer, Ns := [], Authoritative := true }
    else
      { Rcode := RcodeNameError, Answer := [], Ns := [soaRecord s], Authoritative := true }

/-- hasTSIG helper: first TSIG record in a record list. -/
def findTSIG : List RR → Option Header
  | [] => none
  | .tsig h :: _ => some h
  | _ :: rest => findTSIG rest

/-- hasTSIG: the TSIG record from the message's Pseudo section, or none. -/
def hasTSIG (m : Msg) : Option Header :=
  findTSIG m.Pseudo

/-- The observable outcome of an update: the response code written, the store
state after the handler, and whether the response bytes were TSIG-signed. -/
structure UpdateOutcome where
  Rcode : Nat
  store : Store
  signed : Bool
deriving Repr, DecidableEq

/-- writeMsg: packs the message and copies its bytes to the response writer
(`m.Pack(); io.Copy(w, m)`). No TSIG signature is computed or attached
anywhere on this path — the server never calls a signing routine on a reply —
so every outcome it produces is recorded as unsigned. -/
def writeMsg (rcode : Nat) (st : Store) : UpdateOutcome :=
  ⟨rcode, st, false⟩

/-- The update-section loop of handleUpdate (`for _, rr := range r.Ns`),
threading the store through the mutations it performs. Returns the response
code together with the final store; an early `writeMsg; return` in the Go
loop is an early return of the pair. -/
def processEntries (s : Server) (now : Int) : List RR → Store → Nat × Store
  | [], st => (RcodeSuccess, st)
  | rr :: rest, st =>
    let hdr := RR.header rr
    if ¬ EqualName hdr.Name (challengeName s) then
      (RcodeRefused, st)
    else if hdr.Class = ClassINET then
      -- Add record.
      if ¬ RRToType rr = TypeTXT then
        (RcodeRefused, st)
      else
        match rr with
        | .txt _ txtStrings =>
          if txtStrings.isEmpty then
            (RcodeFormatError, st)
          else
            processEntries s now rest (Store.Set st now (String.join txtStrings))
        | _ => (RcodeFormatError, st)
    else if hdr.Class = ClassNONE then
      -- Delete specific RR.
      if ¬ RRToType rr = TypeTXT then
        (RcodeRefused, st)
      else
        processEntries s now rest (Store.Delete st)
    else if hdr.Class = ClassANY then
      -- Delete all RRs of given type or name.
      if RRToType rr = TypeANY ∨ RRToType rr = TypeTXT then
        processEntries s now rest (Store.Delete st)
      else
        (RcodeRefused, st)
    else
      (RcodeRefused, st)

/-- handleUpdate: processes RFC 2136 dynamic update requests. `verifyOk`
abstracts the TSIG MAC primitive: it is the truth of
`dns.TSIGVerify(r, s.tsigSigner, ...) == nil` for this message. -/
def handleUpdate (s : Server) (verifyOk : Bool) (st : Store) (now : Int) (r : Msg) :
    UpdateOutcome :=
  if ¬ r.unpackOk then
    writeMsg RcodeFormatError st
  else
    match hasTSIG r with
    | none => writeMsg RcodeRefused st
    | some t =>
      if ¬ EqualName t.Name s.TsigName then
        writeMsg RcodeNotAuth st
      else if ¬ verifyOk then
        writeMsg RcodeNotAuth st
      else
        match r.Question with
        | [q] =>
          if ¬ EqualName (RR.header q).Name s.Zone then
            writeMsg RcodeRefused st
          else
            let res := processEntries s now r.Ns st
            writeMsg res.1 res.2
        | _ => writeMsg RcodeRefused st

/-! ## Concrete fixtures (used by witnesses and counterexamples) -/

def srv1 : Server := ⟨"example.com.", "ns1.example.com.", "acme-update."⟩

def store0 : Store := ⟨"", 0, false⟩

def tsigHdr : Header := ⟨"acme-update.", ClassANY, 0⟩

def qZone : RR := .soa ⟨"example.com.", ClassINET, 0⟩ "ns1.example.com." "h.example.com." 1 0 0 0 0

def goodAdd : RR := .txt ⟨"_acme-challenge.example.com.", ClassINET, 60⟩ ["tok"]

def badNameEntry : RR := .txt ⟨"other.example.com.", ClassINET, 60⟩ ["x"]

def msgUpd : Msg := ⟨OpcodeUpdate, [qZone], [goodAdd], [.tsig tsigHdr], true⟩

def msgNoTsig : Msg := ⟨OpcodeUpdate, [qZone], [goodAdd], [], true⟩

def msgWrongKey : Msg := ⟨OpcodeUpdate, [qZone], [goodAdd], [.tsig ⟨"evil.", ClassANY, 0⟩], true⟩

def msgEmptyUpd : Msg := ⟨OpcodeUpdate, [qZone], [], [.tsig tsigHdr], true⟩

def msgQ (q : RR) : Msg := ⟨0, [q], [], [], true⟩

def qTxtChallenge : RR := .txt ⟨"_acme-challenge.example.com.", ClassINET, 0⟩ []

def qOutside : RR := .other ⟨"other.com.", ClassINET, 0⟩ TypeA

def qUnknown : RR := .other ⟨"unknown.example.com.", ClassINET, 0⟩ TypeA

/-! ## Claims about the record store -/

/-- C3: Set(v) records an expiry of 10 minutes (recordTTL) after the call
time, and a Get performed at any time strictly after that expiry returns the
empty value with found = false — without any Delete having been called. -/
theorem C3_set_then_get_after_expiry (st : Store) (v : String) (t q : Int)
    (h : t + recordTTL < q) :
    (Store.Set st t v).expiry = t + recordTTL ∧
    Store.Get (Store.Set st t v) q = ("", false) := by
  refine ⟨rfl, ?_⟩
  simp [Store.Set, Store.Get, h]

theorem C3_witness :
    (Store.Set store0 0 "x").expiry = 0 + recordTTL ∧
    Store.Get (Store.Set store0 0 "x") (recordTTL + 1) = ("", false) :=
  C3_set_then_get_after_expiry store0 "x" 0 (recordTTL + 1) (by decide)

/-- C10: after Set(v) at time t, a Get at any time q up to and including the
exact expiry instant t + recordTTL still returns (v, true); the record is
absent exactly at the times strictly after the stored expiry (the expiry
comparison `time.Now().After(s.expiry)` is strict). -/
theorem C10_expiry_boundary_strict (st : Store) (v : String) (t q : Int) :
    Store.Get (Store.Set st t v) q = (v, true) ↔ q ≤ t + recordTTL := by
  have h : Store.Get (Store.Set st t v) q =
      if t + recordTTL < q then ("", false) else (v, true) := by
    simp [Store.Get, Store.Set]
  rw [h]
  split_ifs with hlt
  · constructor
    · intro hv
      simp [Prod.ext_iff] at hv
    · intro hq
      exact absurd hq (by omega)
  · constructor
    · intro _
      omega
    · intro _
      rfl

theorem C10_witness :
    Store.Get (Store.Set store0 3 "v") (recordTTL + 3) = ("v", true) ↔
      recordTTL + 3 ≤ 3 + recordTTL :=
  C10_expiry_boundary_strict store0 "v" 3 (recordTTL + 3)

/-! ## Claims about the query responder -/

/-- C5: a query whose requested name is neither equal to nor a subdomain of
the configured apex is answered with REFUSED and empty answer and authority
sections. -/
theorem C5_refused_outside_zone (s : Server) (st : Store) (now : Int) (r : Msg)
    (q : RR) (rest : List RR) (hq : r.Question = q :: rest)
    (h : IsBelow s.Zone (toLowerName (RR.header q).Name) = false) :
    handleQuery s st now r = ⟨RcodeRefused, [], [], true⟩ := by
  simp [handleQuery, hq, h]

theorem C5_witness :
    handleQuery srv1 store0 0 (msgQ qOutside) = ⟨RcodeRefused, [], [], true⟩ :=
  C5_refused_outside_zone srv1 store0 0 (msgQ qOutside) qOutside [] rfl (by decide)

/-- C6: for a query for the fixed challenge name (a name under the apex,
distinct from the apex, equal to the challenge name): if the type is TXT or
ANY and the store holds a non-expired value val, the answer is exactly one
TXT record carrying val with a 60-second TTL and the code is NOERROR; in
every other case (wrong type, or value absent/expired) the answer is empty
and the synthesized SOA is placed in the authority section (NODATA). -/
theorem C6_challenge_query (s : Server) (st : Store) (now : Int) (r : Msg)
    (q : RR) (rest : List RR) (hq : r.Question = q :: rest)
    (hbelow : IsBelow s.Zone (toLowerName (RR.header q).Name) = true)
    (hapex : EqualName (toLowerName (RR.header q).Name) s.Zone = false)
    (hchal : EqualName (toLowerName (RR.header q).Name) (challengeName s) = true) :
    (∀ val, (RRToType q = TypeTXT ∨ RRToType q = TypeANY) →
        Store.Get st now = (val, true) →
        handleQuery s st now r =
          ⟨RcodeSuccess, [RR.txt ⟨challengeName s, ClassINET, 60⟩ [val]], [], true⟩) ∧
    (¬ (RRToType q = TypeTXT ∨ RRToType q = TypeANY) →
        handleQuery s st now r = ⟨RcodeSuccess, [], [soaRecord s], true⟩) ∧
    ((Store.Get st now).2 = false →
        handleQuery s st now r = ⟨RcodeSuccess, [], [soaRecord s], true⟩) := by
  refine ⟨?_, ?_, ?_⟩
  · intro val htype hget
    simp [handleQuery, hq, hbelow, hapex, hchal, htype, hget]
  · intro htype
    simp [handleQuery, hq, hbelow, hapex, hchal, htype]
  · intro hget
    by_cases htype : RRToType q = TypeTXT ∨ RRToType q = TypeANY
    · rcases hG : Store.Get st now with ⟨val, b⟩
      rw [hG] at hget
      simp at hget
      subst hget
      simp [handleQuery, hq, hbelow, hapex, hchal, htype, hG]
    · simp [handleQuery, hq, hbelow, hapex, hchal, htype]

theorem C6_witness :
    handleQuery srv1 (Store.Set store0 0 "tok") 5 (msgQ qTxtChallenge) =
      ⟨RcodeSuccess, [RR.txt ⟨challengeName srv1, ClassINET, 60⟩ ["tok"]], [], true⟩ ∧
    handleQuery srv1 store0 5 (msgQ qTxtChallenge) =
      ⟨RcodeSuccess, [], [soaRecord srv1], true⟩ :=
  ⟨(C6_challenge_query srv1 (Store.Set store0 0 "tok") 5 (msgQ qTxtChallenge)
      qTxtChallenge [] rfl (by decide) (by decide) (by decide)).1 "tok"
      (Or.inl rfl) (by decide),
   (C6_challenge_query srv1 store0 5 (msgQ qTxtChallenge)
      qTxtChallenge [] rfl (by decide) (by decide) (by decide)).2.2 (by decide)⟩

/-- C7: a query for a name under the apex that is neither the apex nor the
challenge name is answered with NXDOMAIN (name error) and the synthesized SOA
in the authority section. -/
theorem C7_nxdomain_under_zone (s : Server) (st : Store) (now : Int) (r : Msg)
    (q : RR) (rest : List RR) (hq : r.Question = q :: rest)
    (hbelow : IsBelow s.Zone (toLowerName (RR.header q).Name) = true)
    (hapex : EqualName (toLowerName (RR.header q).Name) s.Zone = false)
    (hchal : EqualName (toLowerName (RR.header q).Name) (challengeName s) = false) :
    handleQuery s st now r = ⟨RcodeNameError, [], [soaRecord s], true⟩ := by
  simp [handleQuery, hq, hbelow, hapex, hchal]

theorem C7_witness :
    handleQuery srv1 store0 0 (msgQ qUnknown) = ⟨RcodeNameError, [], [soaRecord srv1], true⟩ :=
  C7_nxdomain_under_zone srv1 store0 0 (msgQ qUnknown) qUnknown [] rfl
    (by decide) (by decide) (by decide)

/-! ## Claims about the update processor -/

/-- C1: for every fully-parsed update message: a missing TSIG record yields
REFUSED; a TSIG record with a key name different from the configured one
yields NOTAUTH; a matching key name with a failing MAC verification yields
NOTAUTH. Each failure returns immediately and in all three cases the store
is returned unchanged (no Set or Delete was performed). -/
theorem C1_auth_gate (s : Server) (v : Bool) (st : Store) (now : Int) (r : Msg)
    (hok : r.unpackOk = true) :
    (hasTSIG r = none →
        handleUpdate s v st now r = ⟨RcodeRefused, st, false⟩) ∧
    (∀ t, hasTSIG r = some t → EqualName t.Name s.TsigName = false →
        handleUpdate s v st now r = ⟨RcodeNotAuth, st, false⟩) ∧
    (∀ t, hasTSIG r = some t → EqualName t.Name s.TsigName = true → v = false →
        handleUpdate s v st now r = ⟨RcodeNotAuth, st, false⟩) := by
  refine ⟨?_, ?_, ?_⟩
  · intro ht
    simp [handleUpdate, writeMsg, hok, ht]
  · intro t ht hname
    simp [handleUpdate, writeMsg, hok, ht, hname]
  · intro t ht hname hv
    simp [handleUpdate, writeMsg, hok, ht, hname, hv]

theorem C1_witness :
    handleUpdate srv1 true store0 0 msgNoTsig = ⟨RcodeRefused, store0, false⟩ ∧
    handleUpdate srv1 true store0 0 msgWrongKey = ⟨RcodeNotAuth, store0, false⟩ ∧
    handleUpdate srv1 false store0 0 msgUpd = ⟨RcodeNotAuth, store0, false⟩ :=
  ⟨(C1_auth_gate srv1 true store0 0 msgNoTsig rfl).1 rfl,
   (C1_auth_gate srv1 true store0 0 msgWrongKey rfl).2.1 ⟨"evil.", ClassANY, 0⟩ rfl (by decide),
   (C1_auth_gate srv1 false store0 0 msgUpd rfl).2.2 tsigHdr rfl (by decide) rfl⟩

/-- C2: an authenticated update with a valid zone section processes its
update-section entries in order through processEntries, and processEntries
satisfies: an exhausted list yields NOERROR; an entry whose name is not the
challenge name stops with REFUSED; for the add class (INET) a non-TXT type
stops with REFUSED, an empty rdata list stops with FORMERROR, and otherwise
processing continues on the store after Set with the joined rdata strings;
for the delete-this-RR class (NONE) a non-TXT type stops with REFUSED and a
TXT record continues on the deleted store regardless of its rdata; for the
delete-RRset class (ANY) a type other than TXT or ANY stops with REFUSED and
otherwise processing continues on the deleted store; any other class stops
with REFUSED. -/
theorem C2_entry_processing (s : Server) (st : Store) (now : Int) (r : Msg)
    (q : RR) (t : Header) (hok : r.unpackOk = true) (ht : hasTSIG r = some t)
    (hname : EqualName t.Name s.TsigName = true)
    (hq : r.Question = [q]) (hz : EqualName (RR.header q).Name s.Zone = true) :
    (handleUpdate s true st now r =
        ⟨(processEntries s now r.Ns st).1, (processEntries s now r.Ns st).2, false⟩) ∧
    (∀ st2, processEntries s now [] st2 = (RcodeSuccess, st2)) ∧
    (∀ rr rest st2, EqualName (RR.header rr).Name (challengeName s) = false →
        processEntries s now (rr :: rest) st2 = (RcodeRefused, st2)) ∧
    (∀ rr rest st2, EqualName (RR.header rr).Name (challengeName s) = true →
        (RR.header rr).Class = ClassINET → ¬ RRToType rr = TypeTXT →
        processEntries s now (rr :: rest) st2 = (RcodeRefused, st2)) ∧
    (∀ hdr rest st2, EqualName hdr.Name (challengeName s) = true →
        hdr.Class = ClassINET →
        processEntries s now (RR.txt hdr [] :: rest) st2 = (RcodeFormatError, st2)) ∧
    (∀ hdr l rest st2, EqualName hdr.Name (challengeName s) = true →
        hdr.Class = ClassINET → l ≠ [] →
        processEntries s now (RR.txt hdr l :: rest) st2 =
          processEntries s now rest (Store.Set st2 now (String.join l))) ∧
    (∀ rr rest st2, EqualName (RR.header rr).Name (challengeName s) = true →
        (RR.header rr).Class = ClassNONE → ¬ RRToType rr = TypeTXT →
        processEntries s now (rr :: rest) st2 = (RcodeRefused, st2)) ∧
    (∀ hdr l rest st2, EqualName hdr.Name (challengeName s) = true →
        hdr.Class = ClassNONE →
        processEntries s now (RR.txt hdr l :: rest) st2 =
          processEntries s now rest (Store.Delete st2)) ∧
    (∀ rr rest st2, EqualName (RR.header rr).Name (challengeName s) = true →
        (RR.header rr).Class = ClassANY →
        ¬ RRToType rr = TypeTXT → ¬ RRToType rr = TypeANY →
        processEntries s now (rr :: rest) st2 = (RcodeRefused, st2)) ∧
    (∀ rr rest st2, EqualName (RR.header rr).Name (challengeName s) = true →
        (RR.header rr).Class = ClassANY →
        (RRToType rr = TypeANY ∨ RRToType rr = TypeTXT) →
        processEntries s now (rr :: rest) st2 =
          processEntries s now rest (Store.Delete st2)) ∧
    (∀ rr rest st2, EqualName (RR.header rr).Name (challengeName s) = true →
        ¬ (RR.header rr).Class = ClassINET → ¬ (RR.header rr).Class = ClassNONE →
        ¬ (RR.header rr).Class = ClassANY →
        processEntries s now (rr :: rest) st2 = (RcodeRefused, st2)) := by
  refine ⟨?_, ?_, ?_, ?_, ?_, ?_, ?_, ?_, ?_, ?_, ?_⟩
  · simp [handleUpdate, writeMsg, hok, ht, hname, hq, hz]
  · intro st2
    simp [processEntries]
  · intro rr rest st2 h
    simp [processEntries, h]
  · intro rr rest st2 h hc hty
    simp [processEntries, h, hc, hty]
  · intro hdr rest st2 h hc
    simp [processEntries, RR.header, RRToType, h, hc]
  · intro hdr l rest st2 h hc hl
    simp [processEntries, RR.header, RRToType, h, hc, hl]
  · intro rr rest st2 h hc hty
    simp [processEntries, h, hc, hty, ClassNONE, ClassINET]
  · intro hdr l rest st2 h hc
    simp [processEntries, RR.header, RRToType, h, hc, ClassNONE, ClassINET]
  · intro rr rest st2 h hc hty hta
    simp [processEntries, h, hc, hty, hta, ClassANY, ClassINET, ClassNONE]
  · intro rr rest st2 h hc hty
    rcases hty with h1 | h1 <;>
      simp [processEntries, h, hc, h1, ClassANY, ClassINET, ClassNONE, TypeANY, TypeTXT]
  · intro rr rest st2 h hc1 hc2 hc3
    simp [processEntries, h, hc1, hc2, hc3]

theorem C2_witness :
    handleUpdate srv1 true store0 0 msgUpd =
      ⟨(processEntries srv1 0 msgUpd.Ns store0).1,
        (processEntries srv1 0 msgUpd.Ns store0).2, false⟩ ∧
    processEntries srv1 0 [] store0 = (RcodeSuccess, store0) ∧
    processEntries srv1 0 [goodAdd]
        store0 = processEntries srv1 0 [] (Store.Set store0 0 (String.join ["tok"])) :=
  ⟨(C2_entry_processing srv1 store0 0 msgUpd qZone tsigHdr rfl rfl (by decide)
      rfl (by decide)).1,
   (C2_entry_processing srv1 store0 0 msgUpd qZone tsigHdr rfl rfl (by decide)
      rfl (by decide)).2.1 store0,
   (C2_entry_processing srv1 store0 0 msgUpd qZone tsigHdr rfl rfl (by decide)
      rfl (by decide)).2.2.2.2.2.1 ⟨"_acme-challenge.example.com.", ClassINET, 60⟩
      ["tok"] [] store0 (by decide) rfl (by decide)⟩

/-- C9: a fully-parsed update that passes all authentication checks, whose
zone section is exactly one entry naming the apex, and whose update section
is empty, is answered with NOERROR and leaves the store unchanged. -/
theorem C9_empty_update_noop (s : Server) (st : Store) (now : Int) (r : Msg)
    (q : RR) (t : Header) (hok : r.unpackOk = true) (ht : hasTSIG r = some t)
    (hname : EqualName t.Name s.TsigName = true)
    (hq : r.Question = [q]) (hz : EqualName (RR.header q).Name s.Zone = true)
    (hns : r.Ns = []) :
    handleUpdate s true st now r = ⟨RcodeSuccess, st, false⟩ := by
  simp [handleUpdate, writeMsg, processEntries, hok, ht, hname, hq, hz, hns]

theorem C9_witness :
    handleUpdate srv1 true store0 0 msgEmptyUpd = ⟨RcodeSuccess, store0, false⟩ :=
  C9_empty_update_noop srv1 store0 0 msgEmptyUpd qZone tsigHdr rfl rfl
    (by decide) rfl (by decide) rfl

/-- C8: if an update entry was applied (here: a valid add, which executes
Set) and processing the remaining entries from the mutated store fails with
REFUSED or FORMERROR, the overall result is that failure code together with
the store that evolved from the mutated store — the Set performed for the
earlier entry is not rolled back. -/
theorem C8_no_rollback (s : Server) (now : Int) (st : Store) (hdr : Header)
    (l : List String) (rest : List RR) (rc : Nat) (st2 : Store)
    (hname : EqualName hdr.Name (challengeName s) = true)
    (hclass : hdr.Class = ClassINET) (hl : l ≠ [])
    (hrest : processEntries s now rest (Store.Set st now (String.join l)) = (rc, st2))
    (hfail : rc = RcodeRefused ∨ rc = RcodeFormatError) :
    processEntries s now (RR.txt hdr l :: rest) st = (rc, st2) := by
  rw [show processEntries s now (RR.txt hdr l :: rest) st =
      processEntries s now rest (Store.Set st now (String.join l)) from by
    simp [processEntries, RR.header, RRToType, hname, hclass, hl]]
  exact hrest

theorem C8_witness :
    processEntries srv1 0 [goodAdd, badNameEntry] store0 =
      (RcodeRefused, Store.Set store0 0 (String.join ["tok"])) ∧
    (Store.Set store0 0 (String.join ["tok"])).set = true :=
  ⟨C8_no_rollback srv1 0 store0 ⟨"_acme-challenge.example.com.", ClassINET, 60⟩
      ["tok"] [badNameEntry] RcodeRefused (Store.Set store0 0 (String.join ["tok"]))
      (by decide) rfl (by decide) (by decide) (Or.inl rfl),
   rfl⟩

/-- C4 counterexample: a fully authenticated, successful update (response
code NOERROR, so the authentication steps all passed) is nevertheless sent
unsigned — the response writer applies no MAC, contradicting the claim that
post-authentication update responses are signed with the requester's MAC. -/
theorem C4_counterexample :
    handleUpdate srv1 true store0 0 msgUpd =
      ⟨RcodeSuccess, ⟨"tok", 600000000000, true⟩, false⟩ ∧
    ¬ (handleUpdate srv1 true store0 0 msgUpd).signed = true := by
  decide

/-- C4 (amended): every update response — whether rejected at the parse,
missing-TSIG, key-name or MAC steps, rejected later, or the NOERROR success
response — is sent unsigned: writeMsg packs and writes the message without
computing any signature, and no branch of handleUpdate signs. -/
theorem C4_all_update_responses_unsigned (s : Server) (v : Bool) (st : Store)
    (now : Int) (r : Msg) :
    (handleUpdate s v st now r).signed = false := by
  unfold handleUpdate
  repeat' split
  all_goals simp [writeMsg]

end DnsPajatso
